import Mathlib

/-!
Shallow embedding of the cache subsystem of `imgdist` (`src/cache.rs`),
together with theorems checking the specification's claims about it.

Modelling conventions:
* Machine integers (`u64`) are `Nat` with explicit `% 2 ^ 64` where overflow
  matters (the FNV hash).
* Filesystem paths (`PathBuf`) are lists of components; `Path::display`
  joins them with `/`.
* The redb store is a total map `String → Option CacheRecord`; a read
  transaction (`get_cache_record`) does not change it, a committed write
  transaction (`put_cache_record`) updates one key.
* Filesystem effects consumed by `evaluate` (`canonicalize`, the exif
  container reader) are an explicit environment of pure functions, so one
  environment models one fixed filesystem state.
* `evaluate` additionally returns the number of `read_exif` invocations it
  performed, instrumenting the single-read property; the decision value is
  the first component and is otherwise exactly the source's.
-/

namespace Imgdist

/-- Path model: a `PathBuf` as its list of components. -/
abbrev FsPath := List String

/-- Rendering of `Path::display` for a relative path: components joined
with the separator. -/
def FsPath.display (p : FsPath) : String :=
  String.intercalate "/" p

/-- Evaluation mode, from `cmd_args/mod.rs` (`CacheEvalMode`). -/
inductive CacheEvalMode where
  | Shallow
  | Strict
deriving DecidableEq, Repr

/-- A `SystemTime` as seconds and nanoseconds since the Unix epoch
(pre-epoch times are out of the model). -/
structure SystemTime where
  secs : Nat
  nanos : Nat
deriving DecidableEq, Repr

/-- `truncate_system_time`: truncate a `SystemTime` to whole seconds. -/
def truncateSystemTime (t : SystemTime) : SystemTime :=
  ⟨t.secs, 0⟩

/-- `format_iso8601`: truncates to seconds and renders via chrono as an
RFC3339 string in the fixed local timezone. The chrono rendering is
external-library code; at a fixed local offset it is an injective function
of the truncated epoch second, modelled here as the decimal string of that
second. -/
def formatIso8601 (t : SystemTime) : String :=
  toString (truncateSystemTime t).secs

/-- The raw Exif tag values `From<&Exif> for ExifSummary` reads, each as
the `display_value().to_string()` of the tag when present
(`get_field` returns `None` when the tag is absent). -/
structure Exif where
  datetime_original : Option String := none
  make : Option String := none
  model : Option String := none
  body_serial_number : Option String := none
  image_unique_id : Option String := none
  pixel_x_dimension : Option String := none
  pixel_y_dimension : Option String := none
deriving DecidableEq, Repr

/-- `ExifSummary` (cache.rs): the extracted fingerprint, five optional
string fields. -/
structure ExifSummary where
  datetime_original : Option String := none
  make_model : Option String := none
  camera_serial : Option String := none
  image_unique_id : Option String := none
  image_dimensions : Option String := none
deriving DecidableEq, Repr

/-- `impl From<&Exif> for ExifSummary`: make/model join with `/` keeping a
lone value; dimensions join with `x` only when both are present. -/
def ExifSummary.ofExif (value : Exif) : ExifSummary :=
  let make_model :=
    match value.make, value.model with
    | some make, some model => some (make ++ "/" ++ model)
    | some make, none => some make
    | none, some model => some model
    | none, none => none
  let image_dimensions :=
    match value.pixel_x_dimension, value.pixel_y_dimension with
    | some w, some h => some (w ++ "x" ++ h)
    | _, _ => none
  { datetime_original := value.datetime_original
    make_model := make_model
    camera_serial := value.body_serial_number
    image_unique_id := value.image_unique_id
    image_dimensions := image_dimensions }

/-- UTF-8 encoding of one scalar value, as `str::as_bytes` renders it. -/
def charUtf8 (c : Char) : List Nat :=
  let n := c.toNat
  if n < 0x80 then [n]
  else if n < 0x800 then
    [0xC0 ||| (n >>> 6), 0x80 ||| (n &&& 0x3F)]
  else if n < 0x10000 then
    [0xE0 ||| (n >>> 12), 0x80 ||| ((n >>> 6) &&& 0x3F), 0x80 ||| (n &&& 0x3F)]
  else
    [0xF0 ||| (n >>> 18), 0x80 ||| ((n >>> 12) &&& 0x3F),
     0x80 ||| ((n >>> 6) &&& 0x3F), 0x80 ||| (n &&& 0x3F)]

/-- UTF-8 bytes of a string (`s.as_bytes()`). -/
def strBytes (s : String) : List Nat :=
  s.data.foldr (fun c acc => charUtf8 c ++ acc) []

/-- FNV-1a 64-bit offset basis (the `fnv` crate's `FnvHasher::default`). -/
def fnvOffsetBasis : Nat := 0xcbf29ce484222325

/-- FNV-1a 64-bit multiplier (the `fnv` crate's per-byte factor). -/
def fnvFactor : Nat := 0x100000001b3

/-- The `fnv` crate's `Hasher::write` then `finish`: per byte,
xor then wrapping 64-bit multiply. -/
def fnv1a64 (bytes : List Nat) : Nat :=
  bytes.foldl (fun hash byte => ((hash ^^^ byte) * fnvFactor) % 2 ^ 64)
    fnvOffsetBasis

/-- `ExifSummary::calc_hash`: hash of the `:`-joined five fields, absent
fields as the empty string. -/
def ExifSummary.calcHash (self : ExifSummary) : Nat :=
  let null := ""
  let s :=
    (self.datetime_original.getD null) ++ ":" ++
    (self.make_model.getD null) ++ ":" ++
    (self.camera_serial.getD null) ++ ":" ++
    (self.image_unique_id.getD null) ++ ":" ++
    (self.image_dimensions.getD null)
  fnv1a64 (strBytes s)

/-- `CacheRecord` (cache.rs): one stored entry. -/
structure CacheRecord where
  timestamp : String
  mtime : String
  file_size : Nat
  exif : ExifSummary
deriving DecidableEq, Repr

/-- `CacheRecord::new`: stamps the record with the truncated current time
(`now` made explicit since the source calls `SystemTime::now()`). -/
def CacheRecord.new (now : SystemTime) (mtime : String) (file_size : Nat)
    (exif : ExifSummary) : CacheRecord :=
  { timestamp := formatIso8601 (truncateSystemTime now)
    mtime := mtime
    file_size := file_size
    exif := exif }

/-- `TxnHandle`: the unpersisted commit handle. -/
structure TxnHandle where
  rel_path : FsPath
  record : CacheRecord
deriving DecidableEq, Repr

/-- `CacheDecision`. -/
inductive CacheDecision where
  | Hit
  | Miss (handle : TxnHandle) (exif : Exif)
deriving DecidableEq, Repr

/-- Errors `evaluate` can surface (each `?` site in the source). -/
inductive EvalError where
  | canonicalizeFailed
  | pathOutsideVolume
  | readExifFailed
deriving DecidableEq, Repr

/-- Decidable equality on `Except`, so concrete evaluations can be checked
by `decide`. -/
instance exceptDecEq {ε α : Type} [DecidableEq ε] [DecidableEq α] :
    DecidableEq (Except ε α) := fun x y =>
  match x, y with
  | .ok a, .ok b =>
    if h : a = b then isTrue (by rw [h]) else isFalse (by simp [h])
  | .error e, .error f =>
    if h : e = f then isTrue (by rw [h]) else isFalse (by simp [h])
  | .ok _, .error _ => isFalse (by simp)
  | .error _, .ok _ => isFalse (by simp)

/-- The redb table content: at most one record per key. -/
def Store := String → Option CacheRecord

/-- The empty store. -/
def Store.empty : Store := fun _ => none

/-- `table.insert(&key, data)` inside a committed write transaction:
overwrite one key. -/
def Store.put (s : Store) (key : String) (v : CacheRecord) : Store :=
  fun k => if k = key then some v else s k

/-- The fields of `Cache` other than the database content (all read-only
after open). -/
structure Cache where
  eval_mode : CacheEvalMode
  volume_id : String
  volRoot : FsPath

/-- `Metadata` as `evaluate` consumes it: `len()` and `modified()`. -/
structure Metadata where
  len : Nat
  modified : SystemTime
deriving DecidableEq, Repr

/-- The filesystem effects `evaluate` performs, as pure functions: one
`Env` value is one fixed filesystem state. `readTags` is the external
exif container reader (`exif::Reader::read_from_container`), `.error`
when the container cannot be parsed. -/
structure Env where
  canonicalize : FsPath → Except EvalError FsPath
  readTags : FsPath → Except EvalError Exif

/-- `read_exif`: read the container, and pack the raw Exif with the
summary derived from it. -/
def readExif (env : Env) (path : FsPath) : Except EvalError (Exif × ExifSummary) :=
  match env.readTags path with
  | .ok exif => .ok (exif, ExifSummary.ofExif exif)
  | .error e => .error e

/-- `build_key`: `"<volume_id>:<rel_path.display()>"`. -/
def buildKey (volume_id : String) (rel_path : FsPath) : String :=
  volume_id ++ ":" ++ rel_path.display

/-- `abs_path.strip_prefix(&self.volume_prefix)?`: drop the volume root
components, error when the path is not under them. -/
def stripRoot (root p : FsPath) : Except EvalError FsPath :=
  if root.isPrefixOf p then .ok (p.drop root.length)
  else .error .pathOutsideVolume

/-- `get_cache_record`: read transaction, look the key up. -/
def Cache.getCacheRecord (c : Cache) (store : Store) (rel_path : FsPath) :
    Option CacheRecord :=
  store (buildKey c.volume_id rel_path)

/-- `put_cache_record`: write transaction, insert at the key, commit. -/
def Cache.putCacheRecord (c : Cache) (store : Store) (rel_path : FsPath)
    (data : CacheRecord) : Store :=
  Store.put store (buildKey c.volume_id rel_path) data

/-- `Cache::commit`: persist the handle's record at the handle's path. -/
def Cache.commit (c : Cache) (store : Store) (handle : TxnHandle) : Store :=
  c.putCacheRecord store handle.rel_path handle.record

/-- The miss fallback tail of `evaluate` (cache.rs lines 451-467): reuse
the reserved exif when present, otherwise read it now; build the handle.
The final `Nat` counts `read_exif` invocations of the whole evaluation
(`reads` invocations happened before entering the tail). -/
def missFallback (env : Env) (now : SystemTime) (path rel_path : FsPath)
    (mtime : String) (meta : Metadata) (reserve : Option (Exif × ExifSummary))
    (reads : Nat) : Except EvalError (CacheDecision × Nat) :=
  match reserve with
  | some (exif, summary) =>
    .ok (.Miss ⟨rel_path, CacheRecord.new now mtime meta.len summary⟩ exif, reads)
  | none =>
    match readExif env path with
    | .error e => .error e
    | .ok (exif, summary) =>
      .ok (.Miss ⟨rel_path, CacheRecord.new now mtime meta.len summary⟩ exif,
        reads + 1)

/-- `Cache::evaluate` (cache.rs lines 403-468). Returns the decision (with
the `read_exif` invocation count) and the store as left by the call; the
store is threaded so that the absence of writes is a statement, not a
convention. -/
def Cache.evaluate (c : Cache) (env : Env) (now : SystemTime) (path : FsPath)
    (meta : Metadata) (store : Store) :
    Except EvalError (CacheDecision × Nat) × Store :=
  match env.canonicalize path with
  | .error e => (.error e, store)
  | .ok abs_path =>
    match stripRoot c.volRoot abs_path with
    | .error e => (.error e, store)
    | .ok rel_path =>
      let mtime := formatIso8601 meta.modified
      match c.getCacheRecord store rel_path with
      | some data =>
        if data.file_size = meta.len ∧ data.mtime = mtime then
          match c.eval_mode with
          | .Shallow => (.ok (.Hit, 0), store)
          | .Strict =>
            match readExif env path with
            | .error e => (.error e, store)
            | .ok (exif, summary) =>
              if summary.calcHash = data.exif.calcHash then
                (.ok (.Hit, 1), store)
              else
                (missFallback env now path rel_path mtime meta
                  (some (exif, summary)) 1, store)
        else
          (missFallback env now path rel_path mtime meta none 0, store)
      | none =>
        (missFallback env now path rel_path mtime meta none 0, store)

/-- The database-acquisition sequence of `Cache::open` (cache.rs lines
285-296): call the builder's create; on error, log a warning and call the
very same create on the same db path again, the file untouched in between;
`?` propagates the second call's error. `create n` is the outcome of the
n-th create call on that path; a failure determined by the file's content
(corrupt file, incompatible format) is the same for every `n`. -/
def openDbWithRetry {Db DbError : Type} (create : Nat → Except DbError Db) :
    Except DbError Db :=
  match create 0 with
  | .ok db => .ok db
  | .error _ => create 1

/-- Modelled from the spec: the combination rule the spec states for a
composite fingerprint field ("if two sub-values are both present, join with
a fixed separator; if only one is present, use it; if neither, the field is
absent"). Stated for comparison with `ExifSummary.ofExif`. -/
def specCombine (a b : Option String) (sep : String) : Option String :=
  match a, b with
  | some x, some y => some (x ++ sep ++ y)
  | some x, none => some x
  | none, some y => some y
  | none, none => none

/-- Modelled from the spec, amended: a composite field present only when
both sub-values are, joined with the separator. -/
def specCombineBoth (a b : Option String) (sep : String) : Option String :=
  match a, b with
  | some x, some y => some (x ++ sep ++ y)
  | _, _ => none

/-! ## Helper lemmas -/

theorem Store.put_self (s : Store) (k : String) (v : CacheRecord) :
    Store.put s k v k = some v := by
  simp [Store.put]

theorem Store.put_put_self (s : Store) (k : String) (v : CacheRecord) :
    Store.put (Store.put s k v) k v = Store.put s k v := by
  funext k'
  by_cases h : k' = k <;> simp [Store.put, h]

/-- Inversion: a `Miss` outcome pins down every intermediate of the
evaluation: canonicalization and root-stripping succeeded, the exif was
read from the file, and the handle pairs the stripped relative path with a
fresh record built from the current metadata and the freshly read
summary. -/
theorem evaluate_miss_inv {c : Cache} {env : Env} {now : SystemTime}
    {path : FsPath} {meta : Metadata} {store : Store} {h : TxnHandle}
    {ex : Exif} {n : Nat}
    (hmiss : (c.evaluate env now path meta store).1 = .ok (.Miss h ex, n)) :
    ∃ abs rel summary,
      env.canonicalize path = .ok abs ∧
      stripRoot c.volRoot abs = .ok rel ∧
      readExif env path = .ok (ex, summary) ∧
      h = ⟨rel, CacheRecord.new now (formatIso8601 meta.modified) meta.len
        summary⟩ := by
  unfold Cache.evaluate at hmiss
  cases hc : env.canonicalize path with
  | error e => simp [hc] at hmiss
  | ok abs =>
  simp only [hc] at hmiss
  cases hs : stripRoot c.volRoot abs with
  | error e => simp [hs] at hmiss
  | ok rel =>
  simp only [hs] at hmiss
  refine ⟨abs, rel, ?_⟩
  cases hr : c.getCacheRecord store rel with
  | none =>
    simp only [hr, missFallback] at hmiss
    cases hread : readExif env path with
    | error e => simp [hread] at hmiss
    | ok pr =>
      obtain ⟨exif, summary⟩ := pr
      simp only [hread, Except.ok.injEq, Prod.mk.injEq,
        CacheDecision.Miss.injEq] at hmiss
      obtain ⟨⟨hmh, hmex⟩, -⟩ := hmiss
      subst hmh; subst hmex
      refine ⟨summary, ?_, ?_, ?_, rfl⟩ <;> simp [hc, hs, hread]
  | some data =>
    simp only [hr] at hmiss
    by_cases hcond : data.file_size = meta.len ∧ data.mtime = formatIso8601 meta.modified
    · rw [if_pos hcond] at hmiss
      cases hm : c.eval_mode with
      | Shallow => simp [hm] at hmiss
      | Strict =>
        simp only [hm] at hmiss
        cases hread : readExif env path with
        | error e => simp [hread] at hmiss
        | ok pr =>
          obtain ⟨exif, summary⟩ := pr
          simp only [hread] at hmiss
          by_cases hh : summary.calcHash = data.exif.calcHash
          · rw [if_pos hh] at hmiss
            simp at hmiss
          · rw [if_neg hh] at hmiss
            simp only [missFallback, Except.ok.injEq, Prod.mk.injEq,
              CacheDecision.Miss.injEq] at hmiss
            obtain ⟨⟨hmh, hmex⟩, -⟩ := hmiss
            subst hmh; subst hmex
            refine ⟨summary, ?_, ?_, ?_, rfl⟩ <;> simp [hc, hs, hread]
    · rw [if_neg hcond] at hmiss
      simp only [missFallback] at hmiss
      cases hread : readExif env path with
      | error e => simp [hread] at hmiss
      | ok pr =>
        obtain ⟨exif, summary⟩ := pr
        simp only [hread, Except.ok.injEq, Prod.mk.injEq,
          CacheDecision.Miss.injEq] at hmiss
        obtain ⟨⟨hmh, hmex⟩, -⟩ := hmiss
        subst hmh; subst hmex
        refine ⟨summary, ?_, ?_, ?_, rfl⟩ <;> simp [hc, hs, hread]


/-- When a stored record matches the current size and mtime, and in Strict
mode a fresh read succeeds with a hash equal to the stored fingerprint's,
evaluation reports a Hit. -/
theorem evaluate_hit_of_match {c : Cache} {env : Env} {now : SystemTime}
    {path : FsPath} {meta : Metadata} {store : Store} {abs rel : FsPath}
    {data : CacheRecord}
    (hc : env.canonicalize path = .ok abs)
    (hs : stripRoot c.volRoot abs = .ok rel)
    (hr : c.getCacheRecord store rel = some data)
    (hsize : data.file_size = meta.len)
    (hmtime : data.mtime = formatIso8601 meta.modified)
    (hstrict : c.eval_mode = .Strict →
      ∃ ex summary, readExif env path = .ok (ex, summary) ∧
        summary.calcHash = data.exif.calcHash) :
    ∃ m, (c.evaluate env now path meta store).1 = .ok (.Hit, m) := by
  unfold Cache.evaluate
  simp only [hc, hs, hr]
  rw [if_pos ⟨hsize, hmtime⟩]
  cases hm : c.eval_mode with
  | Shallow => exact ⟨0, rfl⟩
  | Strict =>
    obtain ⟨ex, summary, hread, hhash⟩ := hstrict hm
    simp only [hread]
    rw [if_pos hhash]
    exact ⟨1, rfl⟩


/-! ## Concrete fixtures used by collision and witness theorems -/

/-- Fingerprint stored in the collision scenario: its datetime field
contains the `:` delimiter. -/
def collideStored : ExifSummary := { datetime_original := some "x:y" }

/-- Current file's tags in the collision scenario: the same characters
distributed across the datetime and make fields. -/
def collideExif : Exif := { datetime_original := some "x", make := some "y:" }

/-- Volume mount root of the witness scenario. -/
def wRoot : FsPath := ["mnt", "vol"]

/-- Evaluated file path (relative to the root) of the witness scenario. -/
def wPath : FsPath := ["DCIM", "100", "IMG_0001.JPG"]

/-- Tags of the previously cached file state. -/
def wExifCanon : Exif := { make := some "Canon", model := some "EOS R5" }

/-- Tags of the current file state: fingerprint-affecting metadata changed,
size and mtime not. -/
def wExifNikon : Exif := { make := some "Nikon", model := some "D850" }

/-- Filesystem of the witness scenario: paths canonicalize under the root,
the current file carries the changed tags. -/
def wEnv : Env :=
  { canonicalize := fun p => .ok (wRoot ++ p)
    readTags := fun _ => .ok wExifNikon }

/-- Same filesystem, but the exif container reader always fails: Shallow
evaluation must hit without ever consulting it. -/
def wEnvNoExif : Env :=
  { canonicalize := fun p => .ok (wRoot ++ p)
    readTags := fun _ => .error .readExifFailed }

/-- Filesystem whose canonicalization leaves paths outside the root. -/
def wEnvFlat : Env :=
  { canonicalize := fun p => .ok p
    readTags := fun _ => .ok wExifNikon }

/-- Current file metadata: size 2048, fixed mtime. -/
def wMeta : Metadata := { len := 2048, modified := ⟨1735657200, 0⟩ }

/-- Clock value of the first evaluation. -/
def wNow : SystemTime := ⟨1735657300, 0⟩

/-- Clock value of a later evaluation. -/
def wNow2 : SystemTime := ⟨1735657400, 0⟩

/-- Stored record: same size and mtime as the current file, fingerprint
from the old tags. -/
def wStored : CacheRecord :=
  CacheRecord.new wNow (formatIso8601 wMeta.modified) wMeta.len
    (ExifSummary.ofExif wExifCanon)

/-- Store holding the stored record under the scenario key. -/
def wStore : Store :=
  Store.put Store.empty (buildKey "ABCD-1234" wPath) wStored

/-- Strict-mode cache of the witness scenario. -/
def wCacheS : Cache := ⟨.Strict, "ABCD-1234", wRoot⟩

/-- The handle a miss on the empty store produces in the witness
scenario. -/
def wHandle : TxnHandle :=
  ⟨wPath, CacheRecord.new wNow (formatIso8601 wMeta.modified) wMeta.len
    (ExifSummary.ofExif wExifNikon)⟩

/-! ## Claim theorems -/

/-- Claim C1: in Strict mode, when a stored record exists whose size and
mtime equal the current file's but the 64-bit hash of the freshly
extracted fingerprint differs from the stored fingerprint's hash,
`evaluate` returns `Miss`, and the handle's record carries the newly
extracted fingerprint, which differs from the stored one. -/
theorem strict_forged_metadata_miss
    (c : Cache) (env : Env) (now : SystemTime) (path : FsPath)
    (meta : Metadata) (store : Store) (abs rel : FsPath)
    (data : CacheRecord) (exif : Exif) (summary : ExifSummary)
    (hmode : c.eval_mode = .Strict)
    (hc : env.canonicalize path = .ok abs)
    (hs : stripRoot c.volRoot abs = .ok rel)
    (hr : c.getCacheRecord store rel = some data)
    (hsize : data.file_size = meta.len)
    (hmtime : data.mtime = formatIso8601 meta.modified)
    (hread : readExif env path = .ok (exif, summary))
    (hhash : summary.calcHash ≠ data.exif.calcHash) :
    (c.evaluate env now path meta store).1 =
      .ok (.Miss ⟨rel, CacheRecord.new now (formatIso8601 meta.modified)
        meta.len summary⟩ exif, 1) ∧
    (CacheRecord.new now (formatIso8601 meta.modified) meta.len summary).exif
      = summary ∧
    summary ≠ data.exif := by
  refine ⟨?_, rfl, fun he => hhash (he ▸ rfl)⟩
  unfold Cache.evaluate
  simp only [hc, hs, hr]
  rw [if_pos ⟨hsize, hmtime⟩, hmode]
  simp only [hread]
  rw [if_neg hhash]
  rfl

/-- Witness for C1: with the stored Canon fingerprint and the current
Nikon one, the hashes differ and Strict evaluation misses with the new
fingerprint in the handle. -/
theorem strict_forged_metadata_miss_witness :
    (ExifSummary.ofExif wExifNikon).calcHash ≠ wStored.exif.calcHash ∧
    (wCacheS.evaluate wEnv wNow2 wPath wMeta wStore).1 =
      .ok (.Miss ⟨wPath, CacheRecord.new wNow2 (formatIso8601 wMeta.modified)
        wMeta.len (ExifSummary.ofExif wExifNikon)⟩ wExifNikon, 1) :=
  ⟨by decide,
    (strict_forged_metadata_miss wCacheS wEnv wNow2 wPath wMeta wStore
      (wRoot ++ wPath) wPath wStored wExifNikon (ExifSummary.ofExif wExifNikon)
      rfl rfl (by decide) (by decide) rfl rfl rfl (by decide)).1⟩

/-- Claim C2: with a stored record matching the current size and mtime,
Shallow mode hits with zero exif reads — even on a filesystem whose exif
reader always fails, so the fingerprint is never consulted — while Strict
mode misses when the fingerprint hash differs. -/
theorem shallow_hit_strict_miss_on_metadata_change
    (vid : String) (root : FsPath) (env envSh : Env) (now : SystemTime)
    (path : FsPath) (meta : Metadata) (store : Store) (abs rel : FsPath)
    (data : CacheRecord) (exif : Exif) (summary : ExifSummary)
    (hcSh : envSh.canonicalize path = .ok abs)
    (hc : env.canonicalize path = .ok abs)
    (hs : stripRoot root abs = .ok rel)
    (hr : store (buildKey vid rel) = some data)
    (hsize : data.file_size = meta.len)
    (hmtime : data.mtime = formatIso8601 meta.modified)
    (hread : readExif env path = .ok (exif, summary))
    (hhash : summary.calcHash ≠ data.exif.calcHash) :
    (Cache.evaluate ⟨.Shallow, vid, root⟩ envSh now path meta store).1 =
      .ok (.Hit, 0) ∧
    ∃ handle, (Cache.evaluate ⟨.Strict, vid, root⟩ env now path meta store).1
      = .ok (.Miss handle exif, 1) := by
  constructor
  · unfold Cache.evaluate
    simp only [Cache.getCacheRecord, hcSh, hs, hr]
    rw [if_pos ⟨hsize, hmtime⟩]
  · refine ⟨⟨rel, CacheRecord.new now (formatIso8601 meta.modified)
      meta.len summary⟩, ?_⟩
    unfold Cache.evaluate
    simp only [Cache.getCacheRecord, hc, hs, hr]
    rw [if_pos ⟨hsize, hmtime⟩]
    simp only [hread]
    rw [if_neg hhash]
    rfl

/-- Witness for C2: stored Canon fingerprint, current Nikon tags, equal
size and mtime; Shallow hits although its exif reader always fails, Strict
misses. -/
theorem shallow_hit_strict_miss_on_metadata_change_witness :
    (Cache.evaluate ⟨.Shallow, "ABCD-1234", wRoot⟩ wEnvNoExif wNow2 wPath
      wMeta wStore).1 = .ok (.Hit, 0) ∧
    ∃ handle, (Cache.evaluate ⟨.Strict, "ABCD-1234", wRoot⟩ wEnv wNow2 wPath
      wMeta wStore).1 = .ok (.Miss handle wExifNikon, 1) :=
  shallow_hit_strict_miss_on_metadata_change "ABCD-1234" wRoot wEnv wEnvNoExif
    wNow2 wPath wMeta wStore (wRoot ++ wPath) wPath wStored wExifNikon
    (ExifSummary.ofExif wExifNikon) rfl rfl (by decide) (by decide) rfl rfl
    rfl (by decide)

/-- Claim C3: whenever `evaluate` misses with handle `h`, committing `h`
and re-evaluating the same path with unchanged metadata on the same
filesystem yields a Hit — whatever the evaluation mode. -/
theorem round_trip_miss_commit_hit
    (c : Cache) (env : Env) (now : SystemTime) (path : FsPath)
    (meta : Metadata) (store : Store) (handle : TxnHandle) (ex : Exif)
    (n : Nat) (now2 : SystemTime)
    (hmiss : (c.evaluate env now path meta store).1 = .ok (.Miss handle ex, n)) :
    ∃ m, (c.evaluate env now2 path meta (c.commit store handle)).1 =
      .ok (.Hit, m) := by
  obtain ⟨abs, rel, summary, hc, hs, hread, hh⟩ := evaluate_miss_inv hmiss
  subst hh
  have hr : c.getCacheRecord
      (c.commit store ⟨rel, CacheRecord.new now (formatIso8601 meta.modified)
        meta.len summary⟩) rel =
      some (CacheRecord.new now (formatIso8601 meta.modified) meta.len
        summary) :=
    Store.put_self store (buildKey c.volume_id rel)
      (CacheRecord.new now (formatIso8601 meta.modified) meta.len summary)
  exact evaluate_hit_of_match hc hs hr rfl rfl
    (fun _ => ⟨ex, summary, hread, rfl⟩)

/-- Witness for C3: on the empty store the scenario file misses with
handle `wHandle`; after committing it, re-evaluation hits. -/
theorem round_trip_miss_commit_hit_witness :
    (wCacheS.evaluate wEnv wNow wPath wMeta Store.empty).1 =
      .ok (.Miss wHandle wExifNikon, 1) ∧
    ∃ m, (wCacheS.evaluate wEnv wNow2 wPath wMeta
      (wCacheS.commit Store.empty wHandle)).1 = .ok (.Hit, m) :=
  ⟨by decide,
    round_trip_miss_commit_hit wCacheS wEnv wNow wPath wMeta Store.empty
      wHandle wExifNikon 1 wNow2 (by decide)⟩

/-- Claim C4: `evaluate` returns the store it was given for every mode and
outcome, so no evaluation persists anything; only `commit` writes, and it
writes exactly the handle's record at the key built from the volume id and
the handle's relative path, leaving every other key unchanged. A handle
that is never committed therefore never reaches the store. -/
theorem evaluate_writes_nothing_commit_writes_handle_key
    (c : Cache) (env : Env) (now : SystemTime) (path : FsPath)
    (meta : Metadata) (store : Store) (handle : TxnHandle) (k : String) :
    (c.evaluate env now path meta store).2 = store ∧
    c.commit store handle k =
      (if k = buildKey c.volume_id handle.rel_path then some handle.record
       else store k) := by
  constructor
  · unfold Cache.evaluate
    dsimp only
    repeat' split
    all_goals rfl
  · rfl

/-- Claim C5 (code bug): `Cache::open`'s recovery path retries the very
same `Database::builder().create` on the untouched database file, so a
failure determined by the pre-existing file's content (corrupt file,
incompatible format) fails the retry identically and open fails — the
store is not recreated from scratch. A transient first failure with a
succeeding second call is the only case the retry rescues. -/
theorem open_retry_reuses_corrupt_file :
    openDbWithRetry (fun _ => (Except.error 0 : Except Nat Unit)) =
      .error 0 ∧
    openDbWithRetry
      (fun n => if n = 0 then (Except.error 0 : Except Nat Unit)
        else .ok ()) = .ok () := by
  exact ⟨rfl, rfl⟩

/-- Counterexample for C6: with only the width sub-value present, the code
leaves the dimensions field absent, while the spec's combination rule says
the lone value is used. -/
theorem dimensions_drop_lone_sub_value :
    (ExifSummary.ofExif { pixel_x_dimension := some "4000" }).image_dimensions
      ≠ specCombine (some "4000") none "x" ∧
    (ExifSummary.ofExif { pixel_x_dimension := some "4000" }).image_dimensions
      = none ∧
    specCombine (some "4000") none "x" = some "4000" := by
  decide

/-- Claim C6 as amended: the make/model field follows the spec's
combination rule with separator `/`; the dimensions field is present only
when both width and height are, joined with `x`, and is absent when either
sub-value is missing. -/
theorem composite_fields_amended_rule (e : Exif) :
    (ExifSummary.ofExif e).make_model = specCombine e.make e.model "/" ∧
    (ExifSummary.ofExif e).image_dimensions =
      specCombineBoth e.pixel_x_dimension e.pixel_y_dimension "x" := by
  cases hm : e.make <;> cases hmo : e.model <;>
    cases hx : e.pixel_x_dimension <;> cases hy : e.pixel_y_dimension <;>
    simp [ExifSummary.ofExif, specCombine, specCombineBoth, hm, hmo, hx, hy]

/-- Claim C7: on a Strict size/mtime match whose fingerprint hash check
fails, the evaluation falls through to Miss having read the exif exactly
once, and the handle's record reuses that same read summary. -/
theorem strict_fallthrough_single_read
    (c : Cache) (env : Env) (now : SystemTime) (path : FsPath)
    (meta : Metadata) (store : Store) (abs rel : FsPath)
    (data : CacheRecord) (exif : Exif) (summary : ExifSummary)
    (hmode : c.eval_mode = .Strict)
    (hc : env.canonicalize path = .ok abs)
    (hs : stripRoot c.volRoot abs = .ok rel)
    (hr : c.getCacheRecord store rel = some data)
    (hsize : data.file_size = meta.len)
    (hmtime : data.mtime = formatIso8601 meta.modified)
    (hread : readExif env path = .ok (exif, summary))
    (hhash : summary.calcHash ≠ data.exif.calcHash) :
    ∃ handle, (c.evaluate env now path meta store).1 =
      .ok (.Miss handle exif, 1) ∧ handle.record.exif = summary := by
  refine ⟨⟨rel, CacheRecord.new now (formatIso8601 meta.modified)
    meta.len summary⟩, ?_, rfl⟩
  unfold Cache.evaluate
  simp only [hc, hs, hr]
  rw [if_pos ⟨hsize, hmtime⟩, hmode]
  simp only [hread]
  rw [if_neg hhash]
  rfl

/-- Witness for C7: the Strict forged-metadata scenario reads the exif
exactly once and the handle reuses the read summary. -/
theorem strict_fallthrough_single_read_witness :
    (ExifSummary.ofExif wExifNikon).calcHash ≠ wStored.exif.calcHash ∧
    ∃ handle, (wCacheS.evaluate wEnv wNow wPath wMeta wStore).1 =
      .ok (.Miss handle wExifNikon, 1) ∧
      handle.record.exif = ExifSummary.ofExif wExifNikon :=
  ⟨by decide,
    strict_fallthrough_single_read wCacheS wEnv wNow wPath wMeta wStore
      (wRoot ++ wPath) wPath wStored wExifNikon (ExifSummary.ofExif wExifNikon)
      rfl rfl (by decide) (by decide) rfl rfl rfl (by decide)⟩

/-- Claim C8: when the canonicalized path is not under the volume root,
`evaluate` returns an error — neither Hit nor Miss — and the store is
untouched. -/
theorem outside_volume_root_error
    (c : Cache) (env : Env) (now : SystemTime) (path : FsPath)
    (meta : Metadata) (store : Store) (abs : FsPath)
    (hc : env.canonicalize path = .ok abs)
    (hout : c.volRoot.isPrefixOf abs = false) :
    (c.evaluate env now path meta store).1 = .error .pathOutsideVolume ∧
    (c.evaluate env now path meta store).2 = store := by
  unfold Cache.evaluate stripRoot
  simp only [hc, hout]
  simp

/-- Witness for C8: a path canonicalizing outside `mnt/vol` makes
evaluation fail and leaves the store as it was. -/
theorem outside_volume_root_error_witness :
    (wCacheS.evaluate wEnvFlat wNow ["other", "x.jpg"] wMeta wStore).1 =
      .error .pathOutsideVolume ∧
    (wCacheS.evaluate wEnvFlat wNow ["other", "x.jpg"] wMeta wStore).2 =
      wStore :=
  outside_volume_root_error wCacheS wEnvFlat wNow ["other", "x.jpg"] wMeta
    wStore ["other", "x.jpg"] rfl (by decide)

/-- Claim C9: committing the same handle twice yields exactly the store of
committing it once; consequently every evaluation after the double commit
agrees with one after the single commit, and a path that missed before
still evaluates to Hit after the double commit. -/
theorem commit_idempotent_overwrite
    (c : Cache) (store : Store) (handle : TxnHandle) :
    c.commit (c.commit store handle) handle = c.commit store handle ∧
    (∀ env now path meta,
      Cache.evaluate c env now path meta (c.commit (c.commit store handle) handle)
        = Cache.evaluate c env now path meta (c.commit store handle)) ∧
    (∀ env now now2 path meta h' ex n,
      (c.evaluate env now path meta store).1 = .ok (.Miss h' ex, n) →
      ∃ m, (c.evaluate env now2 path meta
        (c.commit (c.commit store h') h')).1 = .ok (.Hit, m)) := by
  have hidem : ∀ h' : TxnHandle,
      c.commit (c.commit store h') h' = c.commit store h' :=
    fun h' => Store.put_put_self store (buildKey c.volume_id h'.rel_path)
      h'.record
  refine ⟨hidem handle, fun env now path meta => by rw [hidem handle],
    fun env now now2 path meta h' ex n hmiss => ?_⟩
  rw [hidem h']
  obtain ⟨abs, rel, summary, hc, hs, hread, hh⟩ := evaluate_miss_inv hmiss
  subst hh
  have hr : c.getCacheRecord
      (c.commit store ⟨rel, CacheRecord.new now (formatIso8601 meta.modified)
        meta.len summary⟩) rel =
      some (CacheRecord.new now (formatIso8601 meta.modified) meta.len
        summary) :=
    Store.put_self store (buildKey c.volume_id rel)
      (CacheRecord.new now (formatIso8601 meta.modified) meta.len summary)
  exact evaluate_hit_of_match hc hs hr rfl rfl
    (fun _ => ⟨ex, summary, hread, rfl⟩)

/-- Witness for C9: double-committing the scenario handle equals the
single commit, and the path that missed on the empty store hits after the
double commit. -/
theorem commit_idempotent_overwrite_witness :
    wCacheS.commit (wCacheS.commit Store.empty wHandle) wHandle =
      wCacheS.commit Store.empty wHandle ∧
    (∃ m, (wCacheS.evaluate wEnv wNow2 wPath wMeta
      (wCacheS.commit (wCacheS.commit Store.empty wHandle) wHandle)).1 =
        .ok (.Hit, m)) :=
  ⟨(commit_idempotent_overwrite wCacheS Store.empty wHandle).1,
    (commit_idempotent_overwrite wCacheS Store.empty wHandle).2.2 wEnv wNow
      wNow2 wPath wMeta wHandle wExifNikon 1 (by decide)⟩

/-- Claim C10: the delimiter-joined serialization behind `calc_hash` is
not injective — a fingerprint whose datetime field contains the `:`
delimiter collides with one distributing the same characters over two
adjacent fields — so a Strict evaluation can report Hit although the
stored and current fingerprints differ field by field. -/
theorem calc_hash_delimiter_collision_strict_hit :
    collideStored ≠ ExifSummary.ofExif collideExif ∧
    collideStored.calcHash = (ExifSummary.ofExif collideExif).calcHash ∧
    (Cache.evaluate ⟨.Strict, "VOL", []⟩
      { canonicalize := fun p => .ok p, readTags := fun _ => .ok collideExif }
      ⟨20, 0⟩ ["a.jpg"] ⟨10, ⟨5, 0⟩⟩
      (Store.put Store.empty (buildKey "VOL" ["a.jpg"])
        (CacheRecord.new ⟨15, 0⟩ (formatIso8601 ⟨5, 0⟩) 10
          collideStored))).1 = .ok (.Hit, 1) := by
  refine ⟨by decide, by decide, by decide⟩

end Imgdist
